import Mathlib

/-!
Verification of the service-worker request-caching layer of the eipet
storefront (`public/sw.js`).

The worker is embedded shallowly:

* a `Response` is a status code, a text body and a header list;
* the cache store for the single named cache `CACHE_NAME` is an association
  list from request identity (the full URL string) to the stored response;
* every asynchronous suspension point of a strategy (`caches.open`,
  `cache.match`, the network `fetch`, the background revalidation fetch,
  `cache.put`) is driven by an explicit `Behavior` record that says whether
  that operation throws (rejects) or what the network returns, so theorems
  quantify over every behavior of the network and of the cache store;
* each strategy is written as a `...Body` function returning
  `Except Unit (Response × Store)` - the `try` block, where `.error` is a
  thrown exception - wrapped by the strategy proper, which is the `catch`
  clause producing the synthesized fallback response.  The strategies are
  total Lean functions into `Response × Store`, so "never propagates an
  exception" is witnessed by the type of the embedding together with the
  theorems characterising the possible results.

`cache.put` in the source is started but not awaited, so a failing put can
never redirect control flow; it is modelled by a `putFails` flag that only
decides whether the store is updated.
-/

/-- HTTP response model mirroring the `Response` values of `public/sw.js`:
status code, text body, header list.  `new Response(body, init)` defaults to
status 200 when `init` carries no status. -/
structure Response where
  status : Nat
  body : String
  headers : List (String × String)
  deriving DecidableEq, Repr

/-- The fetch API `response.ok` flag: status in the range 200-299 inclusive. -/
def Response.ok (r : Response) : Bool := 200 ≤ r.status && r.status ≤ 299

/-- The parts of `new URL(request.url)` the worker reads: `url.hostname`,
`url.pathname`, and (through `url.origin`) the scheme and port.  The port is
`none` when it is the scheme's default (JavaScript's `url.port` is the empty
string then and `url.host` omits it). -/
structure Url where
  scheme : String
  hostname : String
  port : Option Nat
  pathname : String
  deriving DecidableEq, Repr

/-- JavaScript `url.host`: the hostname together with the port when the
port is not the scheme's default. -/
def Url.host (u : Url) : String :=
  u.hostname ++ (match u.port with
    | none => ""
    | some p => ":" ++ toString p)

/-- JavaScript `url.origin`: scheme and host - the host includes a
non-default port, so the origin distinguishes both scheme and port. -/
def Url.origin (u : Url) : String := u.scheme ++ "://" ++ u.host

/-- Full URL string; used as the request identity under which the cache
store keys entries. -/
def Url.href (u : Url) : String := u.scheme ++ "://" ++ u.host ++ u.pathname

/-- An intercepted request: `event.request.method` and `new URL(event.request.url)`. -/
structure Request where
  method : String
  url : Url
  deriving DecidableEq, Repr

/-- `const CACHE_VERSION = 'v1'` of `public/sw.js`. -/
def CACHE_VERSION : String := "v1"

/-- `const CACHE_NAME = 'eipet-cache-' + CACHE_VERSION` of `public/sw.js`. -/
def CACHE_NAME : String := "eipet-cache-" ++ CACHE_VERSION

/-- Contents of the single named cache `CACHE_NAME`: an association list from
request identity (full URL string) to the stored response. -/
abbrev Store := List (String × Response)

/-- `cache.match(request)`: the entry stored under the request identity. -/
def Store.lookup (st : Store) (k : String) : Option Response :=
  (st.find? (fun e => e.1 == k)).map (fun e => e.2)

/-- `cache.put(request, response)`: store `v` under identity `k`, replacing
any previous entry for `k`. -/
def Store.put (st : Store) (k : String) (v : Response) : Store :=
  (k, v) :: st.filter (fun e => e.1 != k)

/-- JavaScript `String.prototype.includes`: `sub` occurs somewhere inside `s`
as a contiguous substring. -/
def jsIncludes (s sub : String) : Bool := decide (sub.toList <:+: s.toList)

/-- What the `fetch` event listener does with an intercepted request: either
it returns without calling `event.respondWith` (the request is bypassed and
proceeds natively), or it responds with one of the three strategies. -/
inductive FetchAction where
  | bypass
  | cacheFirst
  | networkFirst
  | networkOnly
  deriving DecidableEq, Repr

/-- The `fetch` event listener of `public/sw.js`, lines 57-93: ordered
first-match-wins classification of an intercepted request, parametrised by
`self.location.origin`. -/
def classify (selfOrigin : String) (request : Request) : FetchAction :=
  let url := request.url
  if request.method != "GET" then .bypass
  else if jsIncludes url.hostname "firebasestorage.googleapis.com" ||
      jsIncludes url.hostname "firebaseapp.com" ||
      jsIncludes url.hostname "googleapis.com" then .bypass
  else if jsIncludes url.hostname "firestore.googleapis.com" then .bypass
  else if jsIncludes url.pathname "/categories" || jsIncludes url.pathname "/brands" then .cacheFirst
  else if jsIncludes url.pathname "/products" then .networkFirst
  else if url.origin == selfOrigin then .cacheFirst
  else .networkOnly

/-- The classifier with the `firestore.googleapis.com` branch removed.  This
is simultaneously (a) the spec's §4.2 rule list - non-GET bypass, bypass
domain set, categories/brands cache-first, products network-first,
same-origin cache-first, otherwise network-only - and (b) the source
classifier without its dedicated Firestore check, which is unreachable
because any hostname containing `firestore.googleapis.com` already contains
`googleapis.com`. -/
def classifySpec (selfOrigin : String) (request : Request) : FetchAction :=
  let url := request.url
  if request.method != "GET" then .bypass
  else if jsIncludes url.hostname "firebasestorage.googleapis.com" ||
      jsIncludes url.hostname "firebaseapp.com" ||
      jsIncludes url.hostname "googleapis.com" then .bypass
  else if jsIncludes url.pathname "/categories" || jsIncludes url.pathname "/brands" then .cacheFirst
  else if jsIncludes url.pathname "/products" then .networkFirst
  else if url.origin == selfOrigin then .cacheFirst
  else .networkOnly

/-- One behavior of the environment during a single strategy run: whether
each cache-store operation throws, and what each network fetch does.
`fetch` is the awaited foreground fetch, `bgFetch` the fire-and-forget
background revalidation fetch of the cache-first strategy.  `putFails`
covers the unawaited `cache.put`, whose failure can only leave the store
unchanged, never alter control flow. -/
structure Behavior where
  openThrows : Bool
  matchThrows : Bool
  fetch : Except Unit Response
  bgFetch : Except Unit Response
  putFails : Bool

/-- `new Response('Offline', { status: 503 })`: the fallback of
`cacheFirstStrategy` and `networkOnlyStrategy`. -/
def offlineResponse : Response := ⟨503, "Offline", []⟩

/-- `new Response('Offline y sin caché', { status: 503 })`: the
network-first fallback when the store has no entry either. -/
def offlineNoCacheResponse : Response := ⟨503, "Offline y sin caché", []⟩

/-- `new Response('Error', { status: 500 })`: the outer catch of
`networkFirstStrategy`. -/
def internalErrorResponse : Response := ⟨500, "Error", []⟩

/-- The `try` block of `cacheFirstStrategy` (`public/sw.js` lines 96-122):
open the cache, look the request up; on a hit start the fire-and-forget
revalidation (storing its result only when it lands with an ok status) and
return the cached response; on a miss await the network, store a copy when
the status is ok, and return the network response.  `.error` is an
exception escaping the `try` block. -/
def cacheFirstBody (b : Behavior) (st : Store) (request : Request) :
    Except Unit (Response × Store) :=
  if b.openThrows then .error ()
  else if b.matchThrows then .error ()
  else match Store.lookup st request.url.href with
  | some cachedResponse =>
      let st1 := match b.bgFetch with
        | .ok response =>
            if response.ok && !b.putFails
            then Store.put st request.url.href response else st
        | .error _ => st
      .ok (cachedResponse, st1)
  | none =>
      match b.fetch with
      | .error e => .error e
      | .ok networkResponse =>
          let st1 := if networkResponse.ok && !b.putFails
            then Store.put st request.url.href networkResponse else st
          .ok (networkResponse, st1)

/-- `cacheFirstStrategy` of `public/sw.js`: the `try` block plus its `catch`,
which synthesizes the 503 `'Offline'` response. -/
def cacheFirstStrategy (b : Behavior) (st : Store) (request : Request) :
    Response × Store :=
  match cacheFirstBody b st request with
  | .ok out => out
  | .error _ => (offlineResponse, st)

/-- The outer `try` block of `networkFirstStrategy` (`public/sw.js` lines
131-157): open the cache; the inner `try` awaits the network and, when the
response status is ok, stores a copy and returns it; a thrown fetch or a
non-ok status falls through to the cache lookup, which returns the cached
entry when present and the synthesized 503 `'Offline y sin caché'` response
otherwise. -/
def networkFirstBody (b : Behavior) (st : Store) (request : Request) :
    Except Unit (Response × Store) :=
  if b.openThrows then .error ()
  else
    let attempt : Option (Response × Store) :=
      match b.fetch with
      | .ok networkResponse =>
          if networkResponse.ok then
            some (networkResponse,
              if b.putFails then st
              else Store.put st request.url.href networkResponse)
          else none
      | .error _ => none
    match attempt with
    | some out => .ok out
    | none =>
        if b.matchThrows then .error ()
        else match Store.lookup st request.url.href with
        | some cachedResponse => .ok (cachedResponse, st)
        | none => .ok (offlineNoCacheResponse, st)

/-- `networkFirstStrategy` of `public/sw.js`: the outer `try` block plus its
`catch`, which synthesizes the 500 `'Error'` response. -/
def networkFirstStrategy (b : Behavior) (st : Store) (request : Request) :
    Response × Store :=
  match networkFirstBody b st request with
  | .ok out => out
  | .error _ => (internalErrorResponse, st)

/-- `networkOnlyStrategy` of `public/sw.js` lines 165-172: pure passthrough
fetch; a thrown fetch becomes the 503 `'Offline'` response.  No store
interaction. -/
def networkOnlyStrategy (b : Behavior) (st : Store) (_request : Request) :
    Response × Store :=
  match b.fetch with
  | .ok networkResponse => (networkResponse, st)
  | .error _ => (offlineResponse, st)

/-- `caches.delete(name)` as seen through `caches.keys()`: the named cache is
removed from the set of live cache names. -/
def deleteCache (names : List String) (n : String) : List String :=
  names.filter (fun m => m != n)

/-- One iteration of the `activate` listener's loop over
`caches.keys()`: `if (cacheName !== CACHE_NAME) caches.delete(cacheName)`. -/
def activateStep (live : List String) (cacheName : String) : List String :=
  if cacheName != CACHE_NAME then deleteCache live cacheName else live

/-- The `activate` listener of `public/sw.js` lines 37-54: enumerate the
cache names present before activation and delete every one different from
`CACHE_NAME`. -/
def activateEvict (names : List String) : List String :=
  names.foldl activateStep names

/-- JSON-serializable payloads a page context can send with a `CACHE_DATA`
message.  Numbers are modelled as integers; float formatting is a platform
concern outside the worker's code. -/
inductive Json where
  | null
  | bool (b : Bool)
  | num (n : Int)
  | str (s : String)
  | arr (elts : List Json)
  | obj (fields : List (String × Json))

/-- JSON string literal with the two escapes every serializer must apply. -/
def quoteString (s : String) : String :=
  "\"" ++ s.foldl
    (fun acc c =>
      acc ++ (if c == '"' then "\\\"" else if c == '\\' then "\\\\"
        else String.singleton c)) "" ++ "\""

mutual

/-- `JSON.stringify` on the modelled payloads. -/
def Json.stringify : Json → String
  | .null => "null"
  | .bool true => "true"
  | .bool false => "false"
  | .num n => toString n
  | .str s => quoteString s
  | .arr elts => "[" ++ Json.stringifyList elts ++ "]"
  | .obj fields => "\x7b" ++ Json.stringifyFields fields ++ "\x7d"

/-- Comma-separated serialization of array elements. -/
def Json.stringifyList : List Json → String
  | [] => ""
  | [j] => Json.stringify j
  | j :: rest => Json.stringify j ++ "," ++ Json.stringifyList rest

/-- Comma-separated serialization of object fields. -/
def Json.stringifyFields : List (String × Json) → String
  | [] => ""
  | [(k, v)] => quoteString k ++ ":" ++ Json.stringify v
  | (k, v) :: rest =>
      quoteString k ++ ":" ++ Json.stringify v ++ "," ++ Json.stringifyFields rest

end

/-- Messages a page context can post to the worker (`event.data`): the two
recognized kinds and everything else. -/
inductive ClientMessage where
  | clearCache
  | cacheData (key : String) (payload : Json)
  | other

/-- The `{ success: boolean }` object posted back on the reply port. -/
structure Reply where
  success : Bool
  deriving DecidableEq, Repr

/-- One behavior of the environment during a message-handler run:
the result of `caches.delete(CACHE_NAME)` (which resolves to whether a cache
was actually removed, or rejects), and whether `caches.open` or `cache.put`
fail during `CACHE_DATA` seeding. -/
structure MsgBehavior where
  deleteResult : Except Unit Bool
  openThrows : Bool
  putFails : Bool

/-- `new Request('/cache/' + key)`: the synthetic identity derived from a
seed key, resolved against the worker's own location. -/
def syntheticRequest (selfUrl : Url) (key : String) : Request :=
  ⟨"GET", ⟨selfUrl.scheme, selfUrl.hostname, selfUrl.port, "/cache/" ++ key⟩⟩

/-- `new Response(JSON.stringify(data), { headers: { 'Content-Type':
'application/json' } })`: the synthetic response a `CACHE_DATA` message is
wrapped into (status defaults to 200). -/
def seedResponse (d : Json) : Response :=
  ⟨200, Json.stringify d, [("Content-Type", "application/json")]⟩

/-- The `message` listener of `public/sw.js` lines 175-191.  `CLEAR_CACHE`
deletes the whole current store and posts `{ success: true }` on the reply
port when the delete resolves; the source installs no rejection handler, so
a rejected delete posts nothing.  `CACHE_DATA` stores the wrapped payload
under the synthetic identity (no reply).  Unrecognized messages are ignored.
Returns the store contents after the handler and the reply posted, if any. -/
def handleMessage (mb : MsgBehavior) (selfUrl : Url) (st : Store)
    (m : ClientMessage) : Store × Option Reply :=
  match m with
  | .clearCache =>
      match mb.deleteResult with
      | .ok _deleted => (([] : Store), some ⟨true⟩)
      | .error _ => (st, none)
  | .cacheData key d =>
      if mb.openThrows || mb.putFails then (st, none)
      else (Store.put st (syntheticRequest selfUrl key).url.href (seedResponse d), none)
  | .other => (st, none)

/-- A behavior where every operation succeeds and both fetches return `r`. -/
def okBehavior (r : Response) : Behavior := ⟨false, false, .ok r, .ok r, false⟩

/-- A behavior where both fetches throw but the cache store works. -/
def offlineBehavior : Behavior := ⟨false, false, .error (), .error (), false⟩

/-- A behavior where `caches.open` itself throws. -/
def brokenCacheBehavior : Behavior := ⟨true, false, .error (), .error (), false⟩

/-- A behavior where the cache opens but reading it (`cache.match`) throws. -/
def brokenMatchBehavior : Behavior := ⟨false, true, .error (), .error (), false⟩

/-- Sample same-origin request used by the concrete instances. -/
def sampleRequest : Request :=
  ⟨"GET", ⟨"https", "eipet.example", none, "/products"⟩⟩

/-- Sample stored response with body `"X"` (the spec's offline-hit scenario). -/
def sampleCached : Response := ⟨200, "X", []⟩

/-- A store holding `sampleCached` under `sampleRequest`'s identity. -/
def sampleStore : Store := [(sampleRequest.url.href, sampleCached)]

/-- Sample non-success network response (status 404). -/
def sampleNotFound : Response := ⟨404, "not found", []⟩

/-- A behavior whose foreground fetch completes with the 404 response and
whose cache store works. -/
def notFoundNetBehavior : Behavior := ⟨false, false, .ok sampleNotFound, .error (), false⟩

/-- The worker's own location used by the concrete instances. -/
def sampleSelfUrl : Url := ⟨"https", "eipet.example", none, "/"⟩

/-- Sample seed payload: the object `(a : 1)`. -/
def samplePayload : Json := Json.obj [("a", Json.num 1)]

/-- A concrete JSON reader that is correct at least on `samplePayload`'s
serialization. -/
def sampleReader (s : String) : Option Json :=
  if s = Json.stringify samplePayload then some samplePayload else none

/-- A message behavior where the delete resolves (deleting an existing
store) and seeding works. -/
def msgOkBehavior : MsgBehavior := ⟨.ok true, false, false⟩

/-- A message behavior where `caches.delete` rejects. -/
def msgDeleteRejects : MsgBehavior := ⟨.error (), false, false⟩

/-- Looking up the identity just written returns exactly the written value. -/
theorem Store.lookup_put (st : Store) (k : String) (v : Response) :
    Store.lookup (Store.put st k v) k = some v := by
  simp [Store.lookup, Store.put]

/-- On a cache hit with a working store, cache-first returns the cached
entry itself, whatever the network behavior. -/
theorem cacheFirst_hit_fst (b : Behavior) (st : Store) (request : Request)
    (c : Response)
    (hopen : b.openThrows = false) (hmatch : b.matchThrows = false)
    (hhit : Store.lookup st request.url.href = some c) :
    (cacheFirstStrategy b st request).1 = c := by
  simp [cacheFirstStrategy, cacheFirstBody, hopen, hmatch, hhit]

/-- Claim C1: for every intercepted GET request and every behavior of the
network and the cache store (either may throw at any suspension point), each
of the three strategies returns a `Response` - the three embeddings are
total functions into `Response × Store`, so no exception reaches the caller
- and the returned response is either one obtained from the store or the
network, or a synthesized response whose status is 500 or 503. -/
theorem claimC1_strategies_never_throw (b : Behavior) (st : Store)
    (request : Request) :
    (Store.lookup st request.url.href = some (cacheFirstStrategy b st request).1
      ∨ b.fetch = .ok (cacheFirstStrategy b st request).1
      ∨ ((cacheFirstStrategy b st request).1 = offlineResponse
          ∧ (cacheFirstStrategy b st request).1.status = 503))
  ∧ (b.fetch = .ok (networkFirstStrategy b st request).1
      ∨ Store.lookup st request.url.href = some (networkFirstStrategy b st request).1
      ∨ ((networkFirstStrategy b st request).1 = offlineNoCacheResponse
          ∧ (networkFirstStrategy b st request).1.status = 503)
      ∨ ((networkFirstStrategy b st request).1 = internalErrorResponse
          ∧ (networkFirstStrategy b st request).1.status = 500))
  ∧ (b.fetch = .ok (networkOnlyStrategy b st request).1
      ∨ ((networkOnlyStrategy b st request).1 = offlineResponse
          ∧ (networkOnlyStrategy b st request).1.status = 503)) := by
  rcases b with ⟨op, mt, f, bg, pf⟩
  refine ⟨?_, ?_, ?_⟩
  · cases op <;> cases mt <;>
      rcases f with e | r <;>
      rcases hl : Store.lookup st request.url.href with _ | c <;>
      rcases bg with be | br <;>
      simp_all [cacheFirstStrategy, cacheFirstBody, offlineResponse]
  · cases op <;> cases mt <;>
      rcases f with e | r <;>
      rcases hl : Store.lookup st request.url.href with _ | c <;>
      (try rcases hok : r.ok with _ | _) <;>
      simp_all [networkFirstStrategy, networkFirstBody, offlineNoCacheResponse,
        internalErrorResponse]
  · rcases f with e | r <;>
      simp_all [networkOnlyStrategy, offlineResponse]

/-- Claim C3: when cache-first finds an entry for the request identity (and
the store operations themselves do not throw), the value returned is exactly
the stored entry, for every network behavior: the response does not wait on
the foreground fetch and the fire-and-forget revalidation never changes it. -/
theorem claimC3_cache_hit_returns_stored (b : Behavior) (st : Store)
    (request : Request) (c : Response)
    (hopen : b.openThrows = false) (hmatch : b.matchThrows = false)
    (hhit : Store.lookup st request.url.href = some c) :
    (cacheFirstStrategy b st request).1 = c
  ∧ (∀ f2 bg2 : Except Unit Response,
      (cacheFirstStrategy ⟨b.openThrows, b.matchThrows, f2, bg2, b.putFails⟩
        st request).1 = c) :=
  ⟨cacheFirst_hit_fst b st request c hopen hmatch hhit,
   fun f2 bg2 =>
     cacheFirst_hit_fst ⟨b.openThrows, b.matchThrows, f2, bg2, b.putFails⟩
       st request c hopen hmatch hhit⟩

/-- Witness for C3: the spec's offline cache-first hit scenario - the store
holds body `"X"` for the sample request, every fetch throws, and the
strategy still returns the stored entry. -/
theorem claimC3_witness :
    (cacheFirstStrategy offlineBehavior sampleStore sampleRequest).1
      = sampleCached :=
  (claimC3_cache_hit_returns_stored offlineBehavior sampleStore sampleRequest
    sampleCached rfl rfl (by decide)).1

/-- Claim C4: when cache-first misses (and the store works), the network
response is returned as-is; a success status (200-299) stores a copy under
the request identity first, a non-success status stores nothing. -/
theorem claimC4_cache_miss_fetches (b : Behavior) (st : Store)
    (request : Request) (networkResponse : Response)
    (hopen : b.openThrows = false) (hmatch : b.matchThrows = false)
    (hmiss : Store.lookup st request.url.href = none)
    (hfetch : b.fetch = .ok networkResponse)
    (hput : b.putFails = false) :
    (cacheFirstStrategy b st request).1 = networkResponse
  ∧ (networkResponse.ok = true →
      (cacheFirstStrategy b st request).2
          = Store.put st request.url.href networkResponse
      ∧ Store.lookup (cacheFirstStrategy b st request).2 request.url.href
          = some networkResponse)
  ∧ (networkResponse.ok = false →
      (cacheFirstStrategy b st request).2 = st
      ∧ Store.lookup (cacheFirstStrategy b st request).2 request.url.href
          = none) := by
  rcases b with ⟨op, mt, f, bg, pf⟩
  subst hfetch
  simp_all only [cacheFirstStrategy, cacheFirstBody]
  rcases hok : networkResponse.ok with _ | _ <;>
    simp [hmiss, hok, Store.lookup_put]

/-- Witness for C4: empty store, network answers 404 - the 404 is passed
through and nothing is cached. -/
theorem claimC4_witness :
    (cacheFirstStrategy notFoundNetBehavior [] sampleRequest).1 = sampleNotFound
  ∧ (cacheFirstStrategy notFoundNetBehavior [] sampleRequest).2 = [] :=
  ⟨(claimC4_cache_miss_fetches notFoundNetBehavior [] sampleRequest
      sampleNotFound rfl rfl rfl rfl rfl).1,
   ((claimC4_cache_miss_fetches notFoundNetBehavior [] sampleRequest
      sampleNotFound rfl rfl rfl rfl rfl).2.2 (by decide)).1⟩

/-- Claim C5: network-first stores and returns a success response
(overwriting any prior entry); on a thrown fetch or a non-success status it
falls back to the cached entry when present, and otherwise synthesizes the
503 `'Offline y sin caché'` response, whose body differs from the plain
`'Offline'` body of the other strategies. -/
theorem claimC5_network_first (b : Behavior) (st : Store) (request : Request)
    (hopen : b.openThrows = false) (hmatch : b.matchThrows = false) :
    (∀ networkResponse, b.fetch = .ok networkResponse →
        networkResponse.ok = true → b.putFails = false →
        networkFirstStrategy b st request
          = (networkResponse, Store.put st request.url.href networkResponse)
        ∧ Store.lookup (networkFirstStrategy b st request).2 request.url.href
            = some networkResponse)
  ∧ (∀ c, (b.fetch = .error () ∨ (∃ nr, b.fetch = .ok nr ∧ nr.ok = false)) →
        Store.lookup st request.url.href = some c →
        networkFirstStrategy b st request = (c, st))
  ∧ ((b.fetch = .error () ∨ (∃ nr, b.fetch = .ok nr ∧ nr.ok = false)) →
        Store.lookup st request.url.href = none →
        networkFirstStrategy b st request = (offlineNoCacheResponse, st))
  ∧ offlineNoCacheResponse.status = 503
  ∧ offlineNoCacheResponse.body ≠ offlineResponse.body := by
  rcases b with ⟨op, mt, f, bg, pf⟩
  simp only at hopen hmatch
  subst hopen hmatch
  refine ⟨?_, ?_, ?_, rfl, by decide⟩
  · intro nr hf hok hput
    simp only at hf hput
    subst hf hput
    simp [networkFirstStrategy, networkFirstBody, hok, Store.lookup_put]
  · intro c hfail hhit
    rcases hfail with hf | ⟨nr, hf, hok⟩
    · simp only at hf
      subst hf
      simp [networkFirstStrategy, networkFirstBody, hhit]
    · simp only at hf
      subst hf
      simp [networkFirstStrategy, networkFirstBody, hhit, hok]
  · intro hfail hmiss
    rcases hfail with hf | ⟨nr, hf, hok⟩
    · simp only at hf
      subst hf
      simp [networkFirstStrategy, networkFirstBody, hmiss]
    · simp only at hf
      subst hf
      simp [networkFirstStrategy, networkFirstBody, hmiss, hok]

/-- Witness for C5: the spec's offline network-first miss scenario - empty
store, network always throws, and the strategy synthesizes the
`'Offline y sin caché'` 503 response. -/
theorem claimC5_witness :
    networkFirstStrategy offlineBehavior [] sampleRequest
      = (offlineNoCacheResponse, []) :=
  (claimC5_network_first offlineBehavior [] sampleRequest rfl rfl).2.2.1
    (Or.inl rfl) rfl

/-- Counterexample to C6 as stated: when `caches.open` throws,
`cacheFirstStrategy`'s catch synthesizes its 503 `'Offline'` response, not a
500 - the claim that store-using strategies convert cache-store errors to
status 500 fails on the cache-first strategy. -/
theorem claimC6_counterexample :
    (cacheFirstStrategy brokenCacheBehavior [] sampleRequest).1.status = 503
  ∧ ¬ (cacheFirstStrategy brokenCacheBehavior [] sampleRequest).1.status = 500 := by
  decide

/-- Claim C6 (amended): a cache-store error (open or read throwing) is
caught at the strategy boundary - `networkFirstStrategy` converts it to the
synthesized 500 `'Error'` response, while `cacheFirstStrategy` converts it
to its 503 `'Offline'` fallback, the same response it uses for network
absence. -/
theorem claimC6_store_error_caught (b : Behavior) (st : Store)
    (request : Request) :
    (b.openThrows = true →
      (cacheFirstStrategy b st request).1 = offlineResponse
      ∧ (networkFirstStrategy b st request).1 = internalErrorResponse)
  ∧ (b.openThrows = false → b.matchThrows = true →
      (cacheFirstStrategy b st request).1 = offlineResponse
      ∧ (b.fetch = .error () →
          (networkFirstStrategy b st request).1 = internalErrorResponse))
  ∧ offlineResponse.status = 503 ∧ internalErrorResponse.status = 500 := by
  rcases b with ⟨op, mt, f, bg, pf⟩
  refine ⟨?_, ?_, rfl, rfl⟩
  · intro hop
    simp only at hop
    subst hop
    simp [cacheFirstStrategy, cacheFirstBody, networkFirstStrategy,
      networkFirstBody]
  · intro hop hmt
    simp only at hop hmt
    subst hop hmt
    refine ⟨?_, ?_⟩
    · simp [cacheFirstStrategy, cacheFirstBody]
    · intro hf
      simp only at hf
      subst hf
      simp [networkFirstStrategy, networkFirstBody]

/-- Witness for the amended C6: with `caches.open` throwing, cache-first
yields the 503 `'Offline'` response and network-first the 500 `'Error'`
response. -/
theorem claimC6_witness :
    (cacheFirstStrategy brokenCacheBehavior sampleStore sampleRequest).1
      = offlineResponse
  ∧ (networkFirstStrategy brokenCacheBehavior sampleStore sampleRequest).1
      = internalErrorResponse :=
  (claimC6_store_error_caught brokenCacheBehavior sampleStore
    sampleRequest).1 rfl

/-- Pointwise form of one deletion step of the activation loop, for a
snapshot head different from the current cache name. -/
theorem activate_step_pred (c : String) (rest : List String) (m : String)
    (hc : (c == CACHE_NAME) = false) :
    ((!rest.contains m || (m == CACHE_NAME)) && (m != c))
      = (!((c :: rest).contains m) || (m == CACHE_NAME)) := by
  rcases hmc : m == c with _ | _ <;>
    rcases hr : rest.contains m with _ | _ <;>
    simp_all [List.contains_cons]
  exact fun _ hcc => hc hcc.symm

/-- Pointwise form of one step of the activation loop, for a snapshot head
equal to the current cache name (no deletion). -/
theorem activate_step_pred_keep (c : String) (rest : List String) (m : String)
    (hc : (c == CACHE_NAME) = true) :
    (!rest.contains m || (m == CACHE_NAME))
      = (!((c :: rest).contains m) || (m == CACHE_NAME)) := by
  rcases hmc : m == c with _ | _ <;>
    simp_all [List.contains_cons]

/-- Folding the activation delete step over a snapshot keeps exactly the
accumulator entries that are absent from the snapshot or equal to
`CACHE_NAME`. -/
theorem activate_foldl_eq (snapshot : List String) :
    ∀ acc : List String,
      snapshot.foldl activateStep acc
      = acc.filter (fun m => !snapshot.contains m || (m == CACHE_NAME)) := by
  induction snapshot with
  | nil =>
      intro acc
      simp
  | cons c rest ih =>
      intro acc
      rcases hc : c == CACHE_NAME with _ | _
      · rw [List.foldl_cons]
        have hstep : activateStep acc c = acc.filter (fun m => m != c) := by
          simp [activateStep, deleteCache, bne, hc]
        rw [hstep, ih, List.filter_filter]
        exact List.filter_congr (fun m _ => activate_step_pred c rest m hc)
      · rw [List.foldl_cons]
        have hstep : activateStep acc c = acc := by
          simp [activateStep, bne, hc]
        rw [hstep, ih]
        exact List.filter_congr (fun m _ => activate_step_pred_keep c rest m hc)

/-- The activation loop leaves exactly the occurrences of `CACHE_NAME`. -/
theorem activateEvict_eq_filter (names : List String) :
    activateEvict names = names.filter (fun m => m == CACHE_NAME) := by
  rw [activateEvict, activate_foldl_eq names names]
  refine List.filter_congr (fun m hm => ?_)
  have hcm : names.contains m = true := List.elem_eq_true_of_mem hm
  rw [hcm]
  simp

/-- Claim C7: activation deletes every pre-existing cache name different
from `CACHE_NAME` and nothing else; when the current store exists among the
pre-existing names (install creates it before activation) and the names form
a set, exactly the current store survives. -/
theorem claimC7_activation_eviction (names : List String) :
    (∀ n, n ∈ activateEvict names ↔ (n ∈ names ∧ n = CACHE_NAME))
  ∧ (CACHE_NAME ∈ names → names.Nodup →
      activateEvict names = [CACHE_NAME]) := by
  constructor
  · intro n
    rw [activateEvict_eq_filter]
    simp [List.mem_filter]
  · intro hmem hnd
    rw [activateEvict_eq_filter]
    have h1 : names.filter (fun m => m == CACHE_NAME)
        = names.filter (fun m => decide (m = CACHE_NAME)) :=
      List.filter_congr (fun x _ => rfl)
    rw [h1, List.filter_eq, List.count_eq_one_of_mem hnd hmem,
      List.replicate_one]

/-- Witness for C7: the spec's activation scenario - two versions exist and
enumerating the names after activation yields exactly the current one. -/
theorem claimC7_witness :
    activateEvict ["eipet-cache-v0", "eipet-cache-v1"] = [CACHE_NAME] :=
  (claimC7_activation_eviction ["eipet-cache-v0", "eipet-cache-v1"]).2
    (by decide) (by decide)

/-- Any hostname containing `firestore.googleapis.com` as a substring also
contains `googleapis.com`. -/
theorem firestore_includes_googleapis (h : String)
    (hf : jsIncludes h "firestore.googleapis.com" = true) :
    jsIncludes h "googleapis.com" = true := by
  simp only [jsIncludes, decide_eq_true_eq] at hf ⊢
  exact List.IsInfix.trans (by decide) hf

/-- The source classifier agrees everywhere with the classifier that lacks
the dedicated `firestore.googleapis.com` branch: that branch is unreachable,
because whenever its condition holds the earlier `googleapis.com` bypass
has already fired. -/
theorem classify_eq_classifySpec (selfOrigin : String) (request : Request) :
    classify selfOrigin request = classifySpec selfOrigin request := by
  unfold classify classifySpec
  rcases hga : jsIncludes request.url.hostname "firebasestorage.googleapis.com" ||
      jsIncludes request.url.hostname "firebaseapp.com" ||
      jsIncludes request.url.hostname "googleapis.com" with _ | _
  · rcases hfs : jsIncludes request.url.hostname "firestore.googleapis.com"
      with _ | _
    · simp [hga, hfs]
    · exfalso
      have := firestore_includes_googleapis request.url.hostname hfs
      simp [this] at hga
  · simp [hga]

/-- Counterexample to C2 as stated: classification is not a pure function
of (method, hostname, path).  The same-origin rule compares `url.origin` -
scheme plus host, where the host includes a non-default port - so two GET
requests identical in (method, hostname, path) but differing in scheme are
classified differently, and two requests identical even in (method, scheme,
hostname, path) but differing in port are classified differently as well. -/
theorem claimC2_counterexample :
    ((Request.mk "GET" ⟨"https", "eipet.example", none, "/about"⟩).method
        = (Request.mk "GET" ⟨"http", "eipet.example", none, "/about"⟩).method
      ∧ (Request.mk "GET" ⟨"https", "eipet.example", none, "/about"⟩).url.hostname
        = (Request.mk "GET" ⟨"http", "eipet.example", none, "/about"⟩).url.hostname
      ∧ (Request.mk "GET" ⟨"https", "eipet.example", none, "/about"⟩).url.pathname
        = (Request.mk "GET" ⟨"http", "eipet.example", none, "/about"⟩).url.pathname
      ∧ classify "https://eipet.example"
          (Request.mk "GET" ⟨"https", "eipet.example", none, "/about"⟩) = .cacheFirst
      ∧ classify "https://eipet.example"
          (Request.mk "GET" ⟨"http", "eipet.example", none, "/about"⟩) = .networkOnly)
  ∧ ((Request.mk "GET" ⟨"https", "eipet.example", none, "/about"⟩).method
        = (Request.mk "GET" ⟨"https", "eipet.example", some 8443, "/about"⟩).method
      ∧ (Request.mk "GET" ⟨"https", "eipet.example", none, "/about"⟩).url.scheme
        = (Request.mk "GET" ⟨"https", "eipet.example", some 8443, "/about"⟩).url.scheme
      ∧ (Request.mk "GET" ⟨"https", "eipet.example", none, "/about"⟩).url.hostname
        = (Request.mk "GET" ⟨"https", "eipet.example", some 8443, "/about"⟩).url.hostname
      ∧ (Request.mk "GET" ⟨"https", "eipet.example", none, "/about"⟩).url.pathname
        = (Request.mk "GET" ⟨"https", "eipet.example", some 8443, "/about"⟩).url.pathname
      ∧ classify "https://eipet.example"
          (Request.mk "GET" ⟨"https", "eipet.example", none, "/about"⟩) = .cacheFirst
      ∧ classify "https://eipet.example"
          (Request.mk "GET" ⟨"https", "eipet.example", some 8443, "/about"⟩)
          = .networkOnly) := by
  refine ⟨⟨rfl, rfl, rfl, ?_, ?_⟩, ⟨rfl, rfl, rfl, rfl, ?_, ?_⟩⟩ <;> decide

/-- Claim C2 (amended): strategy selection is the stated ordered
first-match-wins rule list - it agrees with the spec\'s rule list
`classifySpec` - and it is a pure function of (method, hostname, path,
origin), the origin carrying the scheme and any non-default port;
determinism over (method, hostname, path) alone fails, and adding only the
scheme still fails, because the same-origin rule reads the full
`url.origin`. -/
theorem claimC2_classification (selfOrigin : String) (r1 r2 : Request) :
    classify selfOrigin r1 = classifySpec selfOrigin r1
  ∧ (r1.method = r2.method → r1.url.hostname = r2.url.hostname →
      r1.url.pathname = r2.url.pathname → r1.url.origin = r2.url.origin →
      classify selfOrigin r1 = classify selfOrigin r2) := by
  refine ⟨classify_eq_classifySpec selfOrigin r1, ?_⟩
  rcases r1 with ⟨m1, s1, h1, po1, p1⟩
  rcases r2 with ⟨m2, s2, h2, po2, p2⟩
  intro hm hh hp ho
  simp only at hm hh hp
  subst hm hh hp
  simp only [classify]
  rw [ho]

/-- Witness for the amended C2: concrete instantiation at the sample
same-origin request, discharging the component equalities including the
origin. -/
theorem claimC2_witness :
    classify "https://eipet.example" sampleRequest
      = classifySpec "https://eipet.example" sampleRequest
  ∧ classify "https://eipet.example" sampleRequest
      = classify "https://eipet.example" sampleRequest :=
  ⟨(claimC2_classification "https://eipet.example" sampleRequest
      sampleRequest).1,
   (claimC2_classification "https://eipet.example" sampleRequest
      sampleRequest).2 rfl rfl rfl rfl⟩

/-- Claim C10: the bypass test is substring containment (any GET request
whose hostname merely contains one of the three configured strings anywhere
is bypassed, including `not-googleapis.com.example`), and the dedicated
`firestore.googleapis.com` check is unreachable: the classifier agrees
everywhere with the classifier that drops it, because a hostname containing
`firestore.googleapis.com` always contains `googleapis.com`. -/
theorem claimC10_substring_bypass :
    (∀ selfOrigin : String, ∀ r : Request, r.method = "GET" →
      (jsIncludes r.url.hostname "googleapis.com" = true
        ∨ jsIncludes r.url.hostname "firebaseapp.com" = true
        ∨ jsIncludes r.url.hostname "firebasestorage.googleapis.com" = true) →
      classify selfOrigin r = .bypass)
  ∧ (∀ h : String, jsIncludes h "firestore.googleapis.com" = true →
      jsIncludes h "googleapis.com" = true)
  ∧ (∀ selfOrigin : String, ∀ r : Request,
      classify selfOrigin r = classifySpec selfOrigin r)
  ∧ classify "https://eipet.example"
      (Request.mk "GET" ⟨"https", "not-googleapis.com.example", none, "/p"⟩)
      = .bypass := by
  refine ⟨?_, firestore_includes_googleapis, classify_eq_classifySpec, by decide⟩
  intro selfOrigin r hm hin
  unfold classify
  rw [hm]
  rcases hin with hga | hfa | hfs
  · simp [hga]
  · simp [hfa]
  · simp [hfs]

/-- Witness for C10: a GET request to a hostname that merely embeds
`googleapis.com` inside a larger domain is bypassed. -/
theorem claimC10_witness :
    classify "https://eipet.example"
      (Request.mk "GET" ⟨"https", "api.googleapis.com.evil.example", none, "/v1"⟩)
      = .bypass :=
  claimC10_substring_bypass.1 "https://eipet.example"
    (Request.mk "GET" ⟨"https", "api.googleapis.com.evil.example", none, "/v1"⟩)
    rfl (Or.inl (by decide))

/-- Claim C8: seeding via a `CACHE_DATA` message with key `k` and payload
`d` and then running a cache-first lookup of the synthetic identity
`/cache/k` returns exactly the seeded response: a status-200 response whose
body is the serialization of `d`, so any JSON reader that inverts the
serialization on `d` recovers `d` from the returned body - for every prior
store and every network behavior, as long as the store operations work. -/
theorem claimC8_seed_roundtrip (mb : MsgBehavior) (b : Behavior)
    (selfUrl : Url) (st : Store) (key : String) (d : Json)
    (hmo : mb.openThrows = false) (hmp : mb.putFails = false)
    (hbo : b.openThrows = false) (hbm : b.matchThrows = false) :
    (cacheFirstStrategy b
        (handleMessage mb selfUrl st (.cacheData key d)).1
        (syntheticRequest selfUrl key)).1
      = seedResponse d
  ∧ (cacheFirstStrategy b
        (handleMessage mb selfUrl st (.cacheData key d)).1
        (syntheticRequest selfUrl key)).1.body = Json.stringify d
  ∧ (cacheFirstStrategy b
        (handleMessage mb selfUrl st (.cacheData key d)).1
        (syntheticRequest selfUrl key)).1.status = 200
  ∧ (∀ reader : String → Option Json,
      reader (Json.stringify d) = some d →
      reader (cacheFirstStrategy b
        (handleMessage mb selfUrl st (.cacheData key d)).1
        (syntheticRequest selfUrl key)).1.body = some d) := by
  have hst : (handleMessage mb selfUrl st (.cacheData key d)).1
      = Store.put st (syntheticRequest selfUrl key).url.href
          (seedResponse d) := by
    simp [handleMessage, hmo, hmp]
  have hhit : Store.lookup (handleMessage mb selfUrl st (.cacheData key d)).1
      (syntheticRequest selfUrl key).url.href = some (seedResponse d) := by
    rw [hst]
    exact Store.lookup_put st _ _
  have hmain := cacheFirst_hit_fst b _ (syntheticRequest selfUrl key)
    (seedResponse d) hbo hbm hhit
  refine ⟨hmain, ?_, ?_, ?_⟩
  · rw [hmain]
    rfl
  · rw [hmain]
    rfl
  · intro reader hr
    rw [hmain]
    exact hr

/-- Witness for C8: the spec's round-trip scenario - key `"k"`, payload
`(a : 1)`, empty prior store, offline network; the body equals the
serialization and a concrete reader recovers the payload. -/
theorem claimC8_witness :
    (cacheFirstStrategy offlineBehavior
        (handleMessage msgOkBehavior sampleSelfUrl []
          (.cacheData "k" samplePayload)).1
        (syntheticRequest sampleSelfUrl "k")).1.body
      = Json.stringify samplePayload
  ∧ sampleReader (cacheFirstStrategy offlineBehavior
        (handleMessage msgOkBehavior sampleSelfUrl []
          (.cacheData "k" samplePayload)).1
        (syntheticRequest sampleSelfUrl "k")).1.body = some samplePayload :=
  ⟨(claimC8_seed_roundtrip msgOkBehavior offlineBehavior sampleSelfUrl []
      "k" samplePayload rfl rfl rfl rfl).2.1,
   (claimC8_seed_roundtrip msgOkBehavior offlineBehavior sampleSelfUrl []
      "k" samplePayload rfl rfl rfl rfl).2.2.2 sampleReader
      (by simp [sampleReader])⟩

/-- Counterexample to C9 as stated: when `caches.delete` rejects, the
handler posts no reply at all - there is no `{success: false}` reply in the
failure case, because the delete promise has no rejection handler. -/
theorem claimC9_counterexample :
    (handleMessage msgDeleteRejects sampleSelfUrl sampleStore .clearCache).2
      = none
  ∧ ¬ (handleMessage msgDeleteRejects sampleSelfUrl sampleStore
        .clearCache).2 = some ⟨false⟩ := by
  decide

/-- Claim C9 (amended): when the `caches.delete` promise resolves - with
either boolean result - the handler empties the store and replies
`{success: true}` on the provided port; when the delete rejects, no reply is
sent at all.  The code never posts `{success: false}` and ignores the
boolean the delete resolves to. -/
theorem claimC9_clear_cache (mb : MsgBehavior) (selfUrl : Url) (st : Store) :
    (∀ deleted : Bool, mb.deleteResult = .ok deleted →
        handleMessage mb selfUrl st .clearCache
          = (([] : Store), some ⟨true⟩))
  ∧ (mb.deleteResult = .error () →
        handleMessage mb selfUrl st .clearCache = (st, none)) := by
  constructor
  · intro deleted hd
    simp [handleMessage, hd]
  · intro hd
    simp [handleMessage, hd]

/-- Witness for the amended C9: a resolving delete empties the store and
replies success. -/
theorem claimC9_witness :
    handleMessage msgOkBehavior sampleSelfUrl sampleStore .clearCache
      = (([] : Store), some ⟨true⟩) :=
  (claimC9_clear_cache msgOkBehavior sampleSelfUrl sampleStore).1 true rfl
